import Mathlib

/-!
Verification of the cache-tag registry and the Clerk webhook user-synchronization
handlers of the kore-standards job-board application.

The definitions below are a shallow embedding of the TypeScript source:

* the cache-tag helpers come from `src/lib/dataCache.ts` (bundled in
  `src/app/page.tsx`): `getGlobalTag`, `getIdTag`, `getJobListingTag`,
  `getOrganizationTag`, and the per-entity wrappers and fan-out invalidation
  functions from `features/.../db/cache/*` (cache invalidation is modelled as
  the ordered list of tag strings passed to `revalidateTag`);
* the webhook handlers come from the Inngest function files: the transactional
  `clerkCreateUser` (select-then-insert inside one `db.transaction`), the older
  two-step `clerkCreateUser` variant (separate `insertUser` and
  `insertUserNotificationSettings` steps), `clerkUpdateUser` and
  `clerkDeleteUser`;
* the database is modelled as explicit state (`Db`, lists of rows), a Drizzle
  `db.transaction` as a single atomic state transition, and an Inngest handler
  as a list of atomic steps (`runSteps` / `stepTrace`), where `stepTrace`
  collects every storage state reachable at a step boundary.
-/

/-- The closed set of cache-tag kinds, from the `CacheTag` union type in
`src/lib/dataCache.ts`. -/
inductive CacheTag where
  | users
  | organizations
  | jobListings
  | userNotifications
  | userResumes
  | jobListingApplications
  | organizationUserSettings
  | userNotificationSettings
deriving DecidableEq, Repr

/-- The string literal each `CacheTag` union member stands for. -/
def CacheTag.str : CacheTag → String
  | .users => "users"
  | .organizations => "organizations"
  | .jobListings => "jobListings"
  | .userNotifications => "userNotifications"
  | .userResumes => "userResumes"
  | .jobListingApplications => "jobListingApplications"
  | .organizationUserSettings => "organizationUserSettings"
  | .userNotificationSettings => "userNotificationSettings"

/-- `getGlobalTag(tag)` returns `` `global:${tag}` ``. -/
def getGlobalTag (tag : CacheTag) : String :=
  "global:" ++ tag.str

/-- `getIdTag(tag, id)` returns `` `id:${tag}-${id}` `` (no validation of `id`). -/
def getIdTag (tag : CacheTag) (id : String) : String :=
  "id:" ++ tag.str ++ "-" ++ id

/-- `getJobListingTag(tag, jobListingId)` returns `` `jobListing:${jobListingId}-${tag}` ``. -/
def getJobListingTag (tag : CacheTag) (jobListingId : String) : String :=
  "jobListing:" ++ jobListingId ++ "-" ++ tag.str

/-- `getOrganizationTag(tag, organizationId)` returns
`` `organization:${tag}-${organizationId}` ``. -/
def getOrganizationTag (tag : CacheTag) (organizationId : String) : String :=
  "organization:" ++ tag.str ++ "-" ++ organizationId

/-- The scoped-tag shape the specification describes:
`parentKind + ":" + parentId + "-" + kind`, the parent id standing between the
colon and the hyphen, before the kind. -/
def specScopedTag (parentKind parentId kind : String) : String :=
  parentKind ++ ":" ++ parentId ++ "-" ++ kind

/-- Error raised by the id-tag operation as the specification describes it. -/
inductive TagError where
  | invalidArgument
deriving DecidableEq, Repr

/-- The id-tag operation as the specification describes it: returns
`"id:" + kind + "-" + id`, and fails with `InvalidArgument` when `id` is empty. -/
def specIdTag (kind id : String) : Except TagError String :=
  if id = "" then .error .invalidArgument
  else .ok ("id:" ++ kind ++ "-" ++ id)

/-- `getJobListingsGlobalTag()` from `features/organizations/jobListings/db/cache/jobListings.ts`. -/
def getJobListingsGlobalTag : String :=
  getGlobalTag .jobListings

/-- `getJobListingOrganizationTag(organizationId)`. -/
def getJobListingOrganizationTag (organizationId : String) : String :=
  getOrganizationTag .jobListings organizationId

/-- `getJobListingIdTag(id)`. -/
def getJobListingIdTag (id : String) : String :=
  getIdTag .jobListings id

/-- `revalidateJobListingCache({id, organizationId})`: the tags passed to
`revalidateTag`, in call order. -/
def revalidateJobListingCache (id organizationId : String) : List String :=
  [getJobListingsGlobalTag, getJobListingOrganizationTag organizationId,
    getJobListingIdTag id]

/-- `getUserGlobalTag()` from `features/users/db/cache/users.ts`. -/
def getUserGlobalTag : String :=
  getGlobalTag .users

/-- `getUserIdTag(id)`. -/
def getUserIdTag (id : String) : String :=
  getIdTag .users id

/-- `revalidateUserCache(id)`: the tags passed to `revalidateTag`, in call order. -/
def revalidateUserCache (id : String) : List String :=
  [getUserGlobalTag, getUserIdTag id]

/-- `getUserNotificationSettingsGlobalTag()` from
`features/users/db/cache/userNotificationSettings.ts`. -/
def getUserNotificationSettingsGlobalTag : String :=
  getGlobalTag .userNotificationSettings

/-- `getUserNotificationSettingsIdTag(userId)`. -/
def getUserNotificationSettingsIdTag (userId : String) : String :=
  getIdTag .userNotificationSettings userId

/-- `revalidateUserNotificationSettingsCache(id)`: the tags passed to
`revalidateTag`, in call order. -/
def revalidateUserNotificationSettingsCache (id : String) : List String :=
  [getUserNotificationSettingsGlobalTag, getUserNotificationSettingsIdTag id]

/-- One entry of the Clerk event's `email_addresses` array. -/
structure EmailAddress where
  id : String
  email_address : String
deriving DecidableEq, Repr

/-- The `event.data.data` payload of a Clerk `user.created` / `user.updated`
event, restricted to the fields the handlers read.  `created_at` and
`updated_at` are epoch milliseconds. -/
structure UserEventData where
  id : String
  first_name : Option String
  last_name : Option String
  image_url : String
  email_addresses : List EmailAddress
  primary_email_address_id : String
  created_at : Nat
  updated_at : Nat
deriving DecidableEq, Repr

/-- The `event.data.data` payload of a Clerk `user.deleted` event; `id` may be
null (`Option`). -/
structure UserDeletedData where
  id : Option String
deriving DecidableEq, Repr

/-- A row of `UserTable`. -/
structure UserRow where
  id : String
  name : String
  imageUrl : String
  email : String
  createdAt : Nat
  updatedAt : Nat
deriving DecidableEq, Repr

/-- A row of `UserNotificationSettingsTable`: `userId` is the primary key; the
other columns carry database defaults (`newJobEmailNotifications` defaults to
false, `aiPrompt` is nullable), per the repository's schema documentation.
An insert of `{ userId }` materializes the defaults. -/
structure UserNotificationSettingsRow where
  userId : String
  newJobEmailNotifications : Bool := false
  aiPrompt : Option String := none
deriving DecidableEq, Repr

/-- The relational store restricted to the two tables the user-sync handlers
touch.  Each list models a table; `UserRow.id` and
`UserNotificationSettingsRow.userId` are the primary keys. -/
structure Db where
  users : List UserRow
  userNotificationSettings : List UserNotificationSettingsRow
deriving DecidableEq, Repr

/-- The empty database. -/
def dbEmpty : Db :=
  { users := [], userNotificationSettings := [] }

/-- A user row with the given id exists. -/
def userExists (db : Db) (id : String) : Bool :=
  db.users.any (fun u => u.id == id)

/-- A notification-settings row with the given userId exists. -/
def settingsExist (db : Db) (userId : String) : Bool :=
  db.userNotificationSettings.any (fun r => r.userId == userId)

deriving instance DecidableEq for Except

/-- Errors a handler step can raise; `nonRetriable` embeds Inngest's
`NonRetriableError` (a permanent validation rejection). -/
inductive HandlerError where
  | nonRetriable (msg : String)
deriving DecidableEq, Repr

/-- An atomic handler step: a single all-or-nothing storage transition.  A step
that errors has performed no write (in the source every throw happens before
the corresponding insert, and a Drizzle transaction rolls back wholly). -/
def HandlerStep : Type :=
  Db → Except HandlerError Db

/-- Run a handler's steps in sequence, stopping at the first error. -/
def runSteps : List HandlerStep → Db → Except HandlerError Db
  | [], db => .ok db
  | f :: fs, db =>
    match f db with
    | .error e => .error e
    | .ok db1 => runSteps fs db1

/-- Every storage state reachable while the steps run, in order: the state
before each step and, when no step fails, the final state.  A run abandoned (or
failed) at step `n` has visited exactly the first `n + 1` entries. -/
def stepTrace : List HandlerStep → Db → List Db
  | [], db => [db]
  | f :: fs, db =>
    match f db with
    | .error _ => [db]
    | .ok db1 => db :: stepTrace fs db1

/-- JavaScript's `String.prototype.trim()`: strip leading and trailing
whitespace. -/
def jsTrim (s : String) : String :=
  ⟨((s.data.dropWhile Char.isWhitespace).reverse.dropWhile Char.isWhitespace).reverse⟩

/-- `` `${userData.first_name ?? ''} ${userData.last_name ?? ''}`.trim() || 'Unknown User' ``:
the display name written by the create-user and update-user handlers. -/
def buildUserName (first_name last_name : Option String) : String :=
  let joined := jsTrim (first_name.getD "" ++ " " ++ last_name.getD "")
  if joined = "" then "Unknown User" else joined

/-- `userData.email_addresses.find(email => email.id === userData.primary_email_address_id)`. -/
def findPrimaryEmail (userData : UserEventData) : Option EmailAddress :=
  userData.email_addresses.find? (fun email => email.id == userData.primary_email_address_id)

/-- The `UserTable` row the create-user handler inserts for a validated event. -/
def userRowOfEvent (userData : UserEventData) (email : EmailAddress) : UserRow :=
  { id := userData.id
    name := buildUserName userData.first_name userData.last_name
    imageUrl := userData.image_url
    email := email.email_address
    createdAt := userData.created_at
    updatedAt := userData.updated_at }

/-- `insertUserNotificationSettings(settings)` from
`features/users/db/userNotificationSettings.ts`:
`db.insert(UserNotificationSettingsTable).values(settings).onConflictDoNothing()` —
a conflict on the `userId` primary key leaves the table unchanged and raises no
error.  (The subsequent cache revalidation is `revalidateUserNotificationSettingsCache`.) -/
def insertUserNotificationSettings (db : Db) (settings : UserNotificationSettingsRow) : Db :=
  if db.userNotificationSettings.any (fun r => r.userId == settings.userId) then db
  else { db with userNotificationSettings := db.userNotificationSettings ++ [settings] }

/-- Modelled from the spec: `insertUser` from `@/features/users/db/users` is
imported by the two-step handler but its body is not in the source tree.  The
spec's Created flow reads: "check existence by id.  If absent: ... insert the
SyncedEntity row ...  If present: no-op (treat as success — duplicate
delivery)". -/
def insertUser (db : Db) (user : UserRow) : Db :=
  if db.users.any (fun u => u.id == user.id) then db
  else { db with users := db.users ++ [user] }

/-- Modelled from the spec: `deleteUser` from `@/features/users/db/users` is
imported by the delete handler but its body is not in the source tree.  The
spec reads: "delete the row by id.  Missing-row delete is a no-op success
(idempotent)", and dependent rows (notification settings) are cascade-deleted
with the parent. -/
def deleteUser (db : Db) (id : String) : Db :=
  { users := db.users.filter (fun u => !(u.id == id))
    userNotificationSettings :=
      db.userNotificationSettings.filter (fun r => !(r.userId == id)) }

/-- The mutable columns `updateUser(id, fields)` overwrites. -/
structure UserUpdateFields where
  name : String
  imageUrl : String
  email : String
  updatedAt : Nat
deriving DecidableEq, Repr

/-- Modelled from the spec: `updateUser` from `@/features/users/db/users` is
imported by the update handler but its body is not in the source tree.  The
spec reads: "overwrite mutable fields (name, image, email, updated timestamp)
of the existing row keyed by id"; the missing-row policy is left open by the
spec, so this model overwrites an existing row and creates none. -/
def updateUser (db : Db) (id : String) (fields : UserUpdateFields) : Db :=
  { db with
    users := db.users.map (fun u =>
      if u.id == id then
        { u with
          name := fields.name
          imageUrl := fields.imageUrl
          email := fields.email
          updatedAt := fields.updatedAt }
      else u) }

/-- The single `create-user` step of the transactional `clerkCreateUser`
handler (the version that checks existence with a `select ... limit 1` and
then inserts the user row and its notification-settings row inside one
`db.transaction`).  The transaction is one atomic transition. -/
def clerkCreateUserStep (userData : UserEventData) : HandlerStep :=
  fun db =>
    match findPrimaryEmail userData with
    | none => .error (.nonRetriable "No primary email address found for user")
    | some email =>
      let existingUser := ((db.users.filter (fun u => u.id == userData.id)).map
        (fun u => u.id)).take 1
      if existingUser.length = 0 then
        .ok { users := db.users ++ [userRowOfEvent userData email]
              userNotificationSettings :=
                db.userNotificationSettings ++ [{ userId := userData.id }] }
      else .ok db

/-- The transactional `clerkCreateUser` Inngest handler. -/
def clerkCreateUser (userData : UserEventData) (db : Db) : Except HandlerError Db :=
  runSteps [clerkCreateUserStep userData] db

/-- All storage states reachable while the transactional `clerkCreateUser`
handler processes one event. -/
def clerkCreateUserTrace (userData : UserEventData) (db : Db) : List Db :=
  stepTrace [clerkCreateUserStep userData] db

/-- The `create-user` step of the two-step `clerkCreateUser` variant: validate
the primary email, then `insertUser`. -/
def createUserStep (userData : UserEventData) : HandlerStep :=
  fun db =>
    match findPrimaryEmail userData with
    | none => .error (.nonRetriable "No primary email address found for user")
    | some email => .ok (insertUser db (userRowOfEvent userData email))

/-- The `create-user-notification-settings` step of the two-step
`clerkCreateUser` variant: `insertUserNotificationSettings({ userId })`. -/
def createUserNotificationSettingsStep (userId : String) : HandlerStep :=
  fun db => .ok (insertUserNotificationSettings db { userId := userId })

/-- The two-step `clerkCreateUser` variant: user insert and
notification-settings insert run as two separate Inngest steps. -/
def clerkCreateUser_twoStep (userData : UserEventData) (db : Db) : Except HandlerError Db :=
  runSteps [createUserStep userData, createUserNotificationSettingsStep userData.id] db

/-- All storage states reachable while the two-step `clerkCreateUser` variant
processes one event. -/
def clerkCreateUser_twoStepTrace (userData : UserEventData) (db : Db) : List Db :=
  stepTrace [createUserStep userData, createUserNotificationSettingsStep userData.id] db

/-- The `clerkUpdateUser` Inngest handler: validate the primary email, then
`updateUser` with the rebuilt mutable fields. -/
def clerkUpdateUser (userData : UserEventData) (db : Db) : Except HandlerError Db :=
  match findPrimaryEmail userData with
  | none => .error (.nonRetriable "No primary email address found for user")
  | some email =>
    .ok (updateUser db userData.id
      { name := buildUserName userData.first_name userData.last_name
        imageUrl := userData.image_url
        email := email.email_address
        updatedAt := userData.updated_at })

/-- The `clerkDeleteUser` Inngest handler: reject a null id with a
`NonRetriableError`, otherwise `deleteUser(id)`. -/
def clerkDeleteUser (data : UserDeletedData) (db : Db) : Except HandlerError Db :=
  match data.id with
  | none => .error (.nonRetriable "No user ID provided in delete event")
  | some id => .ok (deleteUser db id)

/-- A well-formed sample `user.created` event for witnesses. -/
def sampleUserEvent : UserEventData :=
  { id := "u1"
    first_name := some "Ada"
    last_name := some "Lovelace"
    image_url := "https://img.example/u1.png"
    email_addresses := [{ id := "e1", email_address := "ada@example.com" }]
    primary_email_address_id := "e1"
    created_at := 1700000000000
    updated_at := 1700000000000 }

/-- A sample event whose email list has no entry matching the primary-email
pointer. -/
def sampleNoEmailEvent : UserEventData :=
  { id := "u2"
    first_name := none
    last_name := none
    image_url := ""
    email_addresses := [{ id := "e1", email_address := "ada@example.com" }]
    primary_email_address_id := "e9"
    created_at := 0
    updated_at := 0 }

/-- A concrete user row as written for `sampleUserEvent`. -/
def sampleUserRow : UserRow :=
  { id := "u1"
    name := "Ada Lovelace"
    imageUrl := "https://img.example/u1.png"
    email := "ada@example.com"
    createdAt := 1700000000000
    updatedAt := 1700000000000 }

/-- The database after the transactional create handler processes
`sampleUserEvent` on an empty database. -/
def dbAfterCreate : Db :=
  { users := [sampleUserRow], userNotificationSettings := [{ userId := "u1" }] }

/-- A sample `user.created` event with neither a first nor a last name. -/
def sampleNoNameEvent : UserEventData :=
  { id := "u3"
    first_name := none
    last_name := none
    image_url := ""
    email_addresses := [{ id := "e1", email_address := "x@y.z" }]
    primary_email_address_id := "e1"
    created_at := 0
    updated_at := 0 }

/-- The user row written for `sampleNoNameEvent`. -/
def sampleNoNameRow : UserRow :=
  { id := "u3", name := "Unknown User", imageUrl := "", email := "x@y.z"
    createdAt := 0, updatedAt := 0 }

/-- The database after the transactional create handler processes
`sampleNoNameEvent` on an empty database. -/
def dbNoName : Db :=
  { users := [sampleNoNameRow], userNotificationSettings := [{ userId := "u3" }] }

/-- The `str` interpretation of the cache-tag kinds is injective: the eight
union members are pairwise distinct strings. -/
theorem cacheTag_str_inj (a b : CacheTag) (h : a.str = b.str) : a = b := by
  cases a <;> cases b <;> first | rfl | exact absurd h (by decide)

/-- C5 (counterexample): on kind "jobListings" and parent id "o1", the
organization-scoped tag function returns "organization:jobListings-o1" — the
kind sits between the colon and the hyphen and the parent id comes last —
which differs from the spec's shape parentKind + ":" + parentId + "-" + kind
(that would be "organization:o1-jobListings"). -/
theorem getOrganizationTag_shape_cex :
    getOrganizationTag CacheTag.jobListings "o1" = "organization:jobListings-o1" ∧
    specScopedTag "organization" "o1" "jobListings" = "organization:o1-jobListings" ∧
    getOrganizationTag CacheTag.jobListings "o1" ≠
      specScopedTag "organization" "o1" "jobListings" := by
  exact ⟨rfl, rfl, by decide⟩

/-- C5 (amended): of the two scoped-tag functions, `getJobListingTag` follows
the spec's shape parentKind + ":" + parentId + "-" + kind (with parent kind
"jobListing"), while `getOrganizationTag` instead interpolates the kind before
the parent id, returning "organization:" + kind + "-" + parentId. -/
theorem scopedTag_shapes (tag : CacheTag) (parentId : String) :
    getJobListingTag tag parentId = specScopedTag "jobListing" parentId tag.str ∧
    getOrganizationTag tag parentId = "organization:" ++ tag.str ++ "-" ++ parentId :=
  ⟨rfl, rfl⟩

/-- C6 (counterexample): applied to the empty id, `getIdTag` does not fail: it
returns the string "id:users-", whereas the spec's validating version rejects
the empty id with `InvalidArgument`. -/
theorem getIdTag_empty_id_cex :
    getIdTag CacheTag.users "" = "id:users-" ∧
    specIdTag (CacheTag.users).str "" = .error TagError.invalidArgument :=
  ⟨rfl, rfl⟩

/-- C6 (amended): for every kind and every id — the empty id included —
`getIdTag` returns "id:" + kind + "-" + id and never fails; it performs no
emptiness check.  On non-empty ids it agrees with the spec's validating
version. -/
theorem getIdTag_shape (tag : CacheTag) (id : String) :
    getIdTag tag id = "id:" ++ tag.str ++ "-" ++ id ∧
    (id ≠ "" → specIdTag tag.str id = .ok (getIdTag tag id)) := by
  refine ⟨rfl, fun h => ?_⟩
  simp only [specIdTag, if_neg h]
  rfl

/-- C6 (witness): the amended statement at kind "users" and id "u1". -/
theorem getIdTag_shape_witness :
    "u1" ≠ "" ∧
    (getIdTag CacheTag.users "u1" = "id:" ++ (CacheTag.users).str ++ "-" ++ "u1" ∧
      ("u1" ≠ "" → specIdTag (CacheTag.users).str "u1" = .ok (getIdTag CacheTag.users "u1"))) :=
  ⟨by decide, getIdTag_shape CacheTag.users "u1"⟩

/-- C7 (counterexample): for job listings with id "j1" and organization "o1",
the fan-out invalidation emits the global tag, then the organization-scoped
tag, and the id tag last — not the order global, id, parent-scoped that the
claim states. -/
theorem revalidateJobListingCache_order_cex :
    revalidateJobListingCache "j1" "o1" =
      [getGlobalTag CacheTag.jobListings, getOrganizationTag CacheTag.jobListings "o1",
        getIdTag CacheTag.jobListings "j1"] ∧
    revalidateJobListingCache "j1" "o1" ≠
      [getGlobalTag CacheTag.jobListings, getIdTag CacheTag.jobListings "j1",
        getOrganizationTag CacheTag.jobListings "o1"] :=
  ⟨rfl, by decide⟩

/-- C7 (amended): the fan-out invalidation emits the global tag first; when a
parent id is supplied (job listings) the parent-scoped tag comes second and the
id tag last; without a parent (users, user notification settings) the id tag
follows the global tag. -/
theorem revalidate_fanout_order (id parentId : String) :
    revalidateJobListingCache id parentId =
      [getGlobalTag CacheTag.jobListings, getOrganizationTag CacheTag.jobListings parentId,
        getIdTag CacheTag.jobListings id] ∧
    revalidateUserCache id = [getGlobalTag CacheTag.users, getIdTag CacheTag.users id] ∧
    revalidateUserNotificationSettingsCache id =
      [getGlobalTag CacheTag.userNotificationSettings,
        getIdTag CacheTag.userNotificationSettings id] :=
  ⟨rfl, rfl, rfl⟩

/-- C8: for all kinds k, k2 and every id string i, the id tag for (k, i)
differs from the global tag for k, and from the id tag for (k2, i) whenever
k2 differs from k: the "id:"/"global:" shapes and the kind namespaces never
collide. -/
theorem cacheTag_noCollision (k k2 : CacheTag) (i : String) :
    getIdTag k i ≠ getGlobalTag k ∧ (k2 ≠ k → getIdTag k i ≠ getIdTag k2 i) := by
  constructor
  · intro h
    have h2 : (some 'i' : Option Char) = some 'g' :=
      congrArg (fun s => s.data.head?) h
    exact absurd h2 (by decide)
  · intro hne h
    have hd := congrArg String.data h
    simp only [getIdTag, String.data_append] at hd
    have h1 := List.append_cancel_right hd
    have h2 := List.append_cancel_right h1
    have h3 := List.append_cancel_left h2
    exact hne (cacheTag_str_inj k2 k (String.ext h3).symm)

/-- C8 (witness): the non-collision statement at kinds "users" and
"organizations" with id "x". -/
theorem cacheTag_noCollision_witness :
    CacheTag.organizations ≠ CacheTag.users ∧
    getIdTag CacheTag.users "x" ≠ getIdTag CacheTag.organizations "x" ∧
    getIdTag CacheTag.users "x" ≠ getGlobalTag CacheTag.users :=
  ⟨by decide,
    (cacheTag_noCollision CacheTag.users CacheTag.organizations "x").2 (by decide),
    (cacheTag_noCollision CacheTag.users CacheTag.organizations "x").1⟩

/-- C9: inserting user notification settings for a userId that already has a
settings row is a silent no-op: the table (and in particular the existing
row's field values) is unchanged and no error is raised — the insert may be
re-run safely. -/
theorem insertUserNotificationSettings_conflict_noop
    (db : Db) (settings r : UserNotificationSettingsRow)
    (hmem : r ∈ db.userNotificationSettings) (hid : r.userId = settings.userId) :
    insertUserNotificationSettings db settings = db ∧
    r ∈ (insertUserNotificationSettings db settings).userNotificationSettings := by
  have hany : db.userNotificationSettings.any (fun x => x.userId == settings.userId) = true :=
    List.any_eq_true.mpr ⟨r, hmem, by simp [hid]⟩
  refine ⟨?_, ?_⟩
  · simp [insertUserNotificationSettings, hany]
  · simp [insertUserNotificationSettings, hany, hmem]

/-- C9 (witness): re-inserting settings for "u1" over a database that already
has a settings row for "u1" — even with different non-key field values —
returns the database unchanged, the original row still present. -/
theorem insertUserNotificationSettings_conflict_noop_witness :
    ({ userId := "u1" } : UserNotificationSettingsRow) ∈ dbAfterCreate.userNotificationSettings ∧
    (({ userId := "u1" } : UserNotificationSettingsRow).userId =
      ({ userId := "u1", newJobEmailNotifications := true, aiPrompt := some "p" } :
        UserNotificationSettingsRow).userId) ∧
    insertUserNotificationSettings dbAfterCreate
      { userId := "u1", newJobEmailNotifications := true, aiPrompt := some "p" } = dbAfterCreate ∧
    ({ userId := "u1" } : UserNotificationSettingsRow) ∈
      (insertUserNotificationSettings dbAfterCreate
        { userId := "u1", newJobEmailNotifications := true, aiPrompt := some "p" }).userNotificationSettings :=
  ⟨by decide, by decide,
    (insertUserNotificationSettings_conflict_noop dbAfterCreate
      { userId := "u1", newJobEmailNotifications := true, aiPrompt := some "p" }
      { userId := "u1" } (by decide) (by decide)).1,
    (insertUserNotificationSettings_conflict_noop dbAfterCreate
      { userId := "u1", newJobEmailNotifications := true, aiPrompt := some "p" }
      { userId := "u1" } (by decide) (by decide)).2⟩

/-- The display name the handlers write is never the empty string: either the
trimmed join of the name parts is non-empty and is used as-is, or the literal
fallback "Unknown User" is used. -/
theorem buildUserName_ne_empty (first_name last_name : Option String) :
    buildUserName first_name last_name ≠ "" := by
  simp only [buildUserName]
  split
  · decide
  · next hj => exact hj

/-- C1: on a database holding no row for the event's id, the transactional
create-user handler succeeds and inserts the row; feeding the very same event
to the handler again observes the existing row, is a no-op treated as success
(it returns the same state, unchanged), and the storage ends with exactly one
user row for that id. -/
theorem clerkCreateUser_duplicate_idempotent
    (userData : UserEventData) (db db1 : Db)
    (hfresh : db.users.filter (fun u => u.id == userData.id) = [])
    (hok : clerkCreateUser userData db = .ok db1) :
    clerkCreateUser userData db1 = .ok db1 ∧
    (db1.users.filter (fun u => u.id == userData.id)).length = 1 := by
  simp only [clerkCreateUser, runSteps, clerkCreateUserStep] at hok ⊢
  cases hfind : findPrimaryEmail userData with
  | none => rw [hfind] at hok; exact absurd hok (by simp)
  | some email =>
    rw [hfind] at hok
    rw [hfresh] at hok
    simp only [List.map_nil, List.take_nil, List.length_nil, if_pos rfl] at hok
    have hdb1 : db1 = { users := db.users ++ [userRowOfEvent userData email]
                        userNotificationSettings :=
                          db.userNotificationSettings ++ [{ userId := userData.id }] } := by
      cases hok
      rfl
    subst hdb1
    have hfilter : (db.users ++ [userRowOfEvent userData email]).filter
        (fun u => u.id == userData.id) = [userRowOfEvent userData email] := by
      rw [List.filter_append, hfresh]
      simp [userRowOfEvent]
    constructor
    · simp [hfilter]
    · simp [hfilter]

/-- C1 (witness): `sampleUserEvent` processed twice starting from the empty
database: the first run yields `dbAfterCreate`, the second is a success that
returns `dbAfterCreate` unchanged, and exactly one "u1" user row remains. -/
theorem clerkCreateUser_duplicate_idempotent_witness :
    dbEmpty.users.filter (fun u => u.id == sampleUserEvent.id) = [] ∧
    clerkCreateUser sampleUserEvent dbEmpty = .ok dbAfterCreate ∧
    (clerkCreateUser sampleUserEvent dbAfterCreate = .ok dbAfterCreate ∧
      (dbAfterCreate.users.filter (fun u => u.id == sampleUserEvent.id)).length = 1) :=
  ⟨by decide, by decide,
    clerkCreateUser_duplicate_idempotent sampleUserEvent dbEmpty dbAfterCreate
      (by decide) (by decide)⟩

/-- C2 (counterexample): the two-step create-user variant is not atomic: on the
empty database and a well-formed event for "u1", some storage state reachable
while it runs (the state between its two steps) holds the "u1" user row but no
"u1" notification-settings row. -/
theorem clerkCreateUser_twoStep_not_atomic :
    ¬ (∀ s ∈ clerkCreateUser_twoStepTrace sampleUserEvent dbEmpty,
        userExists s "u1" = settingsExist s "u1") := by
  decide

/-- C2 (amended): the transactional create-user handler (the variant whose
select-then-insert and dependent-row insert run inside one `db.transaction`)
is atomic: starting from any state where the user row and its
notification-settings row either both exist or both are absent, every storage
state reachable during processing keeps that both-or-neither property.  The
two-step variant violates this (see its counterexample). -/
theorem clerkCreateUser_tx_atomic
    (userData : UserEventData) (db s : Db)
    (hinv : userExists db userData.id = settingsExist db userData.id)
    (hs : s ∈ clerkCreateUserTrace userData db) :
    userExists s userData.id = settingsExist s userData.id := by
  simp only [clerkCreateUserTrace, stepTrace, clerkCreateUserStep] at hs
  cases hfind : findPrimaryEmail userData with
  | none =>
    rw [hfind] at hs
    simp only [List.mem_singleton] at hs
    subst hs
    exact hinv
  | some email =>
    rw [hfind] at hs
    dsimp only at hs
    by_cases hlen : (((db.users.filter (fun u => u.id == userData.id)).map
        (fun u => u.id)).take 1).length = 0
    · rw [if_pos hlen] at hs
      simp only [stepTrace, List.mem_cons, List.mem_singleton, List.not_mem_nil, or_false] at hs
      rcases hs with hs | hs
      · subst hs; exact hinv
      · subst hs
        simp [userExists, settingsExist, userRowOfEvent, List.any_append]
    · rw [if_neg hlen] at hs
      simp only [stepTrace, List.mem_cons, List.mem_singleton, List.not_mem_nil, or_false] at hs
      rcases hs with hs | hs <;> (subst hs; exact hinv)

/-- C2 (witness): the amended statement for `sampleUserEvent` on the empty
database, at the reachable post-transaction state `dbAfterCreate`. -/
theorem clerkCreateUser_tx_atomic_witness :
    userExists dbEmpty sampleUserEvent.id = settingsExist dbEmpty sampleUserEvent.id ∧
    dbAfterCreate ∈ clerkCreateUserTrace sampleUserEvent dbEmpty ∧
    userExists dbAfterCreate sampleUserEvent.id = settingsExist dbAfterCreate sampleUserEvent.id :=
  ⟨by decide, by decide,
    clerkCreateUser_tx_atomic sampleUserEvent dbEmpty dbAfterCreate (by decide) (by decide)⟩

/-- C3: when the event's email list has no entry matching the primary-email
pointer, both create-user handler variants reject the event with the
non-retriable validation error "No primary email address found for user" and
perform zero storage writes: the only reachable storage state is the initial
one. -/
theorem clerkCreateUser_missingEmail_rejected
    (userData : UserEventData) (db : Db)
    (h : findPrimaryEmail userData = none) :
    clerkCreateUser userData db =
      .error (.nonRetriable "No primary email address found for user") ∧
    clerkCreateUserTrace userData db = [db] ∧
    clerkCreateUser_twoStep userData db =
      .error (.nonRetriable "No primary email address found for user") ∧
    clerkCreateUser_twoStepTrace userData db = [db] := by
  refine ⟨?_, ?_, ?_, ?_⟩ <;>
    simp [clerkCreateUser, clerkCreateUser_twoStep, clerkCreateUserTrace,
      clerkCreateUser_twoStepTrace, runSteps, stepTrace, clerkCreateUserStep,
      createUserStep, h]

/-- C3 (witness): `sampleNoEmailEvent` (its pointer "e9" matches no email
entry) on the empty database. -/
theorem clerkCreateUser_missingEmail_rejected_witness :
    findPrimaryEmail sampleNoEmailEvent = none ∧
    (clerkCreateUser sampleNoEmailEvent dbEmpty =
        .error (.nonRetriable "No primary email address found for user") ∧
      clerkCreateUserTrace sampleNoEmailEvent dbEmpty = [dbEmpty] ∧
      clerkCreateUser_twoStep sampleNoEmailEvent dbEmpty =
        .error (.nonRetriable "No primary email address found for user") ∧
      clerkCreateUser_twoStepTrace sampleNoEmailEvent dbEmpty = [dbEmpty]) :=
  ⟨by decide, clerkCreateUser_missingEmail_rejected sampleNoEmailEvent dbEmpty (by decide)⟩

/-- C4: a `user.deleted` event carrying a non-null id that matches no stored
user row (and no settings row) is handled as a success: the handler returns
`ok` with the storage unchanged and raises no error. -/
theorem clerkDeleteUser_missing_row_noop
    (data : UserDeletedData) (db : Db) (uid : String)
    (hid : data.id = some uid)
    (hu : ∀ u ∈ db.users, u.id ≠ uid)
    (hr : ∀ r ∈ db.userNotificationSettings, r.userId ≠ uid) :
    clerkDeleteUser data db = .ok db := by
  have h1 : db.users.filter (fun u => !(u.id == uid)) = db.users :=
    List.filter_eq_self.mpr (fun a ha => by simpa using hu a ha)
  have h2 : db.userNotificationSettings.filter (fun r => !(r.userId == uid)) =
      db.userNotificationSettings :=
    List.filter_eq_self.mpr (fun a ha => by simpa using hr a ha)
  simp [clerkDeleteUser, hid, deleteUser, h1, h2]

/-- C4 (witness): deleting the nonexistent id "ghost" on a database holding the
"u1" user and settings rows returns success with the database unchanged. -/
theorem clerkDeleteUser_missing_row_noop_witness :
    (({ id := some "ghost" } : UserDeletedData)).id = some "ghost" ∧
    (∀ u ∈ dbAfterCreate.users, u.id ≠ "ghost") ∧
    (∀ r ∈ dbAfterCreate.userNotificationSettings, r.userId ≠ "ghost") ∧
    clerkDeleteUser { id := some "ghost" } dbAfterCreate = .ok dbAfterCreate :=
  ⟨rfl, by decide, by decide,
    clerkDeleteUser_missing_row_noop { id := some "ghost" } dbAfterCreate "ghost"
      rfl (by decide) (by decide)⟩

/-- C10: every user row the create-user or update-user handler writes (i.e.
every row of the result that was not already in the initial storage with the
same values) has the name built from the event — the trimmed space-join of the
first and last names, or the literal "Unknown User" when that join trims to
empty — and that name is never the empty string. -/
theorem userRow_name_nonEmpty
    (userData : UserEventData) (db db1 : Db)
    (h : clerkCreateUser userData db = .ok db1 ∨ clerkUpdateUser userData db = .ok db1) :
    ∀ u ∈ db1.users, u ∈ db.users ∨
      (u.name = buildUserName userData.first_name userData.last_name ∧
        u.name ≠ "" ∧
        (jsTrim (userData.first_name.getD "" ++ " " ++ userData.last_name.getD "") = "" →
          u.name = "Unknown User")) := by
  have hname : ∀ u : UserRow,
      u.name = buildUserName userData.first_name userData.last_name →
      u.name = buildUserName userData.first_name userData.last_name ∧
        u.name ≠ "" ∧
        (jsTrim (userData.first_name.getD "" ++ " " ++ userData.last_name.getD "") = "" →
          u.name = "Unknown User") := by
    intro u hu
    refine ⟨hu, hu ▸ buildUserName_ne_empty _ _, fun hj => ?_⟩
    rw [hu]
    simp [buildUserName, hj]
  rcases h with h | h
  · simp only [clerkCreateUser, runSteps, clerkCreateUserStep] at h
    cases hfind : findPrimaryEmail userData with
    | none => rw [hfind] at h; exact absurd h (by simp)
    | some email =>
      rw [hfind] at h
      dsimp only at h
      by_cases hlen : (((db.users.filter (fun u => u.id == userData.id)).map
          (fun u => u.id)).take 1).length = 0
      · rw [if_pos hlen] at h
        have hdb1 : db1 = { users := db.users ++ [userRowOfEvent userData email]
                            userNotificationSettings :=
                              db.userNotificationSettings ++ [{ userId := userData.id }] } := by
          cases h; rfl
        subst hdb1
        intro u hu
        rcases List.mem_append.mp hu with hmem | hmem
        · exact Or.inl hmem
        · rw [List.mem_singleton] at hmem
          subst hmem
          exact Or.inr (hname _ rfl)
      · rw [if_neg hlen] at h
        have hdb1 : db1 = db := by cases h; rfl
        subst hdb1
        exact fun u hu => Or.inl hu
  · simp only [clerkUpdateUser] at h
    cases hfind : findPrimaryEmail userData with
    | none => rw [hfind] at h; exact absurd h (by simp)
    | some email =>
      rw [hfind] at h
      have hdb1 : db1 = updateUser db userData.id
          { name := buildUserName userData.first_name userData.last_name
            imageUrl := userData.image_url
            email := email.email_address
            updatedAt := userData.updated_at } := by
        cases h; rfl
      subst hdb1
      intro u hu
      simp only [updateUser, List.mem_map] at hu
      rcases hu with ⟨v, hv, hveq⟩
      by_cases hvid : v.id == userData.id
      · rw [if_pos hvid] at hveq
        exact Or.inr (hname u (by rw [← hveq]))
      · rw [if_neg hvid] at hveq
        exact Or.inl (hveq ▸ hv)

/-- C10 (witness): `sampleNoNameEvent` (no first or last name) created on the
empty database writes `sampleNoNameRow`, whose name is the non-empty fallback
"Unknown User". -/
theorem userRow_name_nonEmpty_witness :
    (clerkCreateUser sampleNoNameEvent dbEmpty = .ok dbNoName ∨
      clerkUpdateUser sampleNoNameEvent dbEmpty = .ok dbNoName) ∧
    sampleNoNameRow ∈ dbNoName.users ∧
    (sampleNoNameRow ∈ dbEmpty.users ∨
      (sampleNoNameRow.name = buildUserName sampleNoNameEvent.first_name
          sampleNoNameEvent.last_name ∧
        sampleNoNameRow.name ≠ "" ∧
        (jsTrim (sampleNoNameEvent.first_name.getD "" ++ " " ++
            sampleNoNameEvent.last_name.getD "") = "" →
          sampleNoNameRow.name = "Unknown User"))) :=
  ⟨Or.inl (by decide), by decide,
    userRow_name_nonEmpty sampleNoNameEvent dbEmpty dbNoName (Or.inl (by decide))
      sampleNoNameRow (by decide)⟩
